/-
  Verification development for the virtual-kubelet health-checking core.

  Shallow embedding of:
    - providers/errors/errors.go   (error taxonomy)
    - manager/prober/prober.go     (probe engine and readiness tracker)
    - manager/liveness.go          (liveness dispatcher)

  Go maps are modelled as association lists with Go's assignment
  semantics; Go (value, error) returns become Except / Option; the
  external probe primitives (HTTP, TCP, exec) are parameters, and each
  run of the engine additionally reports the list of primitive
  invocations it performed so that "no primitive is invoked" is statable.
-/
import Mathlib

namespace VK

/-! ## Error taxonomy (providers/errors/errors.go) -/

/-- ErrorReason is the enumeration of failure causes from errors.go. -/
inductive ErrorReason where
  | unknown
  | unauthorized
  | notFound
  | internalServerError
  | serviceUnavailable
  | tooManyRequests
  | badRequest
deriving DecidableEq, Repr

/-- ErrorDetails from errors.go; RetryAfterSeconds is an int32 in the source,
modelled as Int (no claim depends on 32-bit wrap-around). -/
structure ErrorDetails where
  RetryAfterSeconds : Int
deriving DecidableEq, Repr

/-- ErrorStatus from errors.go. The OrigErr field (the wrapped cause) is
not carried: no classification function inspects it. -/
structure ErrorStatus where
  Reason : ErrorReason
  Details : Option ErrorDetails
  Message : String
deriving DecidableEq, Repr

/-- A Go error value as seen by the classification functions: either it
implements the Interface capability (a Status accessor, as OperationError
does), or it is an arbitrary error that does not. -/
inductive GoError where
  | operation (status : ErrorStatus)
  | plain (msg : String)
deriving DecidableEq, Repr

/-- The type switch `switch t := err.(type) { case Interface: ... }`
reduced to an accessor: the status when the error exposes one. -/
def statusOf : GoError → Option ErrorStatus
  | .operation s => some s
  | .plain _ => none

/-- reasonForError from errors.go. -/
def reasonForError (err : GoError) : ErrorReason :=
  match statusOf err with
  | some s => s.Reason
  | none => ErrorReason.unknown

/-- IsNotFound from errors.go. -/
def IsNotFound (err : GoError) : Bool :=
  reasonForError err = ErrorReason.notFound

/-- IsRetryable from errors.go, translated literally: in the Go switch the
`TooManyRequests` and `ServiceUnavailable` cases have empty bodies and Go
cases do not fall through, so control exits the switch and reaches the
trailing `return false`; only the `InternalServerError` case body holds
`return true`. -/
def IsRetryable (err : GoError) : Bool :=
  match reasonForError err with
  | ErrorReason.tooManyRequests => false
  | ErrorReason.serviceUnavailable => false
  | ErrorReason.internalServerError => true
  | _ => false

/-- SuggestsClientDelay from errors.go. -/
def SuggestsClientDelay (err : GoError) : Int × Bool :=
  match statusOf err with
  | some s =>
    match s.Details with
    | some d =>
      match s.Reason with
      | ErrorReason.serviceUnavailable => (d.RetryAfterSeconds, true)
      | _ =>
        if d.RetryAfterSeconds > 0 then (d.RetryAfterSeconds, true)
        else (0, false)
    | none => (0, false)
  | none => (0, false)

/-- NewNotFound from errors.go. -/
def NewNotFound (message : String) : GoError :=
  .operation { Reason := ErrorReason.notFound, Details := none, Message := message }

/-- NewUnauthorized from errors.go. -/
def NewUnauthorized (message : String) : GoError :=
  .operation { Reason := ErrorReason.unauthorized, Details := none, Message := message }

/-- NewBadRequest from errors.go. -/
def NewBadRequest (message : String) : GoError :=
  .operation { Reason := ErrorReason.badRequest, Details := none, Message := message }

/-- NewTooManyRequests from errors.go. -/
def NewTooManyRequests (message : String) (retryAfterSeconds : Int) : GoError :=
  .operation { Reason := ErrorReason.tooManyRequests,
               Details := some { RetryAfterSeconds := retryAfterSeconds },
               Message := message }

/-- NewInternalServerError from errors.go. -/
def NewInternalServerError (message : String) (retryAfterSeconds : Int) : GoError :=
  .operation { Reason := ErrorReason.internalServerError,
               Details := some { RetryAfterSeconds := retryAfterSeconds },
               Message := message }

/-- NewServiceUnavailable from errors.go. -/
def NewServiceUnavailable (message : String) (retryAfterSeconds : Int) : GoError :=
  .operation { Reason := ErrorReason.serviceUnavailable,
               Details := some { RetryAfterSeconds := retryAfterSeconds },
               Message := message }

/-- NewUnknownError from errors.go. -/
def NewUnknownError (message : String) : GoError :=
  .operation { Reason := ErrorReason.unknown, Details := none, Message := message }

/-! ## Pod data model (k8s.io/api/core/v1, the fields this core reads) -/

/-- PodPhase: the workload phase values read by liveness.go. -/
inductive PodPhase where
  | pending
  | running
  | succeeded
  | failed
deriving DecidableEq, Repr

/-- ContainerStatus: the fields read by SetContainerReadiness. -/
structure ContainerStatus where
  Name : String
  ContainerID : String
deriving DecidableEq, Repr

/-- PodStatus: the fields read by the prober, readiness and liveness code. -/
structure PodStatus where
  Phase : PodPhase
  Reason : String
  PodIP : String
  ContainerStatuses : List ContainerStatus
deriving DecidableEq, Repr

/-- Pod: identity, deletion marker (time value abstracted to Int) and status.
DeletionTimestamp is an optional pointer in the source; only nil-ness is read. -/
structure Pod where
  Namespace : String
  Name : String
  UID : String
  DeletionTimestamp : Option Int
  Status : PodStatus
deriving DecidableEq, Repr

/-! ## Probe engine (manager/prober/prober.go) -/

/-- probe.Result from the probe package: the per-attempt outcome. -/
inductive ProbeResult where
  | success
  | failure
  | unknown
deriving DecidableEq, Repr

/-- results.Result from the results package: the cache-facing outcome the
wrapper returns (only Success and Failure exist there). -/
inductive ResultsResult where
  | success
  | failure
deriving DecidableEq, Repr

/-- One (probe.Result, output, error) triple as returned by runProbe and by
the underlying probe primitives. -/
structure AttemptOutcome where
  result : ProbeResult
  output : String
  err : Option String
deriving DecidableEq, Repr

/-- intstr.IntOrString: a tagged value whose Type field selects the int or
the string payload; the source field is named Type, a Lean keyword, so it
is rendered Kind here; it is an int in the source, so values other than
the two declared kinds are representable (extractPort has a default
branch for them). -/
structure IntOrString where
  Kind : Nat
  IntVal : Int
  StrVal : String
deriving DecidableEq, Repr

/-- intstr.Int kind tag. -/
def intstrInt : Nat := 0

/-- intstr.String kind tag. -/
def intstrString : Nat := 1

/-- Decimal digit run to Nat; none on an empty run or a non-digit. -/
def digitsToNat : List Char → Option Nat
  | [] => none
  | cs => cs.foldl
      (fun acc c => match acc with
        | none => none
        | some n => if c.isDigit then some (n * 10 + (c.toNat - 48)) else none)
      (some 0)

/-- strconv.Atoi: optional sign followed by at least one digit; none on
anything else (the source only tests the error for nil-ness). -/
def strconvAtoi (s : String) : Option Int :=
  match s.data with
  | [] => none
  | c :: rest =>
    if c = '+' then (digitsToNat rest).map Int.ofNat
    else if c = '-' then (digitsToNat rest).map (fun n => -(n : Int))
    else (digitsToNat (c :: rest)).map Int.ofNat

/-- IntOrString.IntValue from the intstr package: the int payload, or the
string payload parsed as an int (0 when unparsable). -/
def IntOrString.IntValue (p : IntOrString) : Int :=
  if p.Kind = intstrString then (strconvAtoi p.StrVal).getD 0 else p.IntVal

/-- v1.ContainerPort: the fields read by findPortByName. -/
structure ContainerPort where
  Name : String
  ContainerPort : Int
deriving DecidableEq, Repr

/-- v1.HTTPHeader. -/
structure HTTPHeader where
  Name : String
  Value : String
deriving DecidableEq, Repr

/-- v1.Container: the fields read by the probe engine. Env entries are
only handed to the external command expansion, so they stay opaque pairs. -/
structure Container where
  Name : String
  Ports : List ContainerPort
  Env : List (String × String)
deriving DecidableEq, Repr

/-- v1.ExecAction. -/
structure ExecAction where
  Command : List String
deriving DecidableEq, Repr

/-- v1.HTTPGetAction. -/
structure HTTPGetAction where
  Scheme : String
  Host : String
  Port : IntOrString
  Path : String
  HTTPHeaders : List HTTPHeader
deriving DecidableEq, Repr

/-- v1.TCPSocketAction. -/
structure TCPSocketAction where
  Host : String
  Port : IntOrString
deriving DecidableEq, Repr

/-- v1.Probe: at most one protocol variant populated, plus the timeout. -/
structure Probe where
  Exec : Option ExecAction
  HTTPGet : Option HTTPGetAction
  TCPSocket : Option TCPSocketAction
  TimeoutSeconds : Int
deriving DecidableEq, Repr

/-- findPortByName from prober.go: first declared port with a matching
name wins; error when none matches. -/
def findPortByName (container : Container) (portName : String) : Except String Int :=
  match container.Ports.find? (fun port => port.Name = portName) with
  | some port => .ok port.ContainerPort
  | none => .error ("port " ++ portName ++ " not found")

/-- extractPort from prober.go: kind dispatch, then the name lookup with
the Atoi fallback, then the open-interval range gate. Error returns carry
the message only; the caller tests just the error's presence. -/
def extractPort (param : IntOrString) (container : Container) : Except String Int :=
  let resolved : Except String Int :=
    if param.Kind = intstrInt then .ok param.IntValue
    else if param.Kind = intstrString then
      match findPortByName container param.StrVal with
      | .ok port => .ok port
      | .error _ =>
        match strconvAtoi param.StrVal with
        | some port => .ok port
        | none => .error ("parsing " ++ param.StrVal ++ ": invalid syntax")
    else .error "IntOrString had no kind"
  match resolved with
  | .error e => .error e
  | .ok port =>
    if 0 < port ∧ port < 65536 then .ok port
    else .error "invalid port number"

/-- The loop body of buildHeader: one Go map-append assignment,
`headers[h.Name] = append(headers[h.Name], h.Value)`, on the map
modelled as a total function defaulting to the empty list (matching Go
map reads of absent keys). -/
def headerStep (headers : String → List String) (header : HTTPHeader) :
    String → List String :=
  fun name =>
    if name = header.Name then headers header.Name ++ [header.Value]
    else headers name

/-- buildHeader from prober.go: folds the header list into a multi-valued
name to values map, appending under each entry's name. -/
def buildHeader (headerList : List HTTPHeader) : String → List String :=
  headerList.foldl headerStep (fun _ => [])

/-- url.URL as produced by formatURL: scheme, joined host, and the path
carried through (url.Parse's finer decomposition of the path is not
observed by any caller in this repository, and its failure branch also
just carries the raw path). -/
structure URL where
  Scheme : String
  Host : String
  Path : String
deriving DecidableEq, Repr

/-- strings.ToLower restricted to the characters that occur in schemes. -/
def stringToLower (s : String) : String :=
  String.mk (s.data.map Char.toLower)

/-- net.JoinHostPort for the names used here. -/
def joinHostPort (host : String) (port : Int) : String :=
  host ++ ":" ++ toString port

/-- formatURL from prober.go. -/
def formatURL (scheme host : String) (port : Int) (path : String) : URL :=
  { Scheme := scheme, Host := joinHostPort host port, Path := path }

/-- format.Pod from the kubelet format package: name, namespace and uid. -/
def formatPod (pod : Pod) : String :=
  pod.Name ++ "_" ++ pod.Namespace ++ "(" ++ pod.UID ++ ")"

/-- The external probe primitives and the external command expansion the
engine delegates to; each returns one (result, output, error) triple. -/
structure Primitives where
  expandCommand : List String → List (String × String) → List String
  execProbe : List String → Int → AttemptOutcome
  httpProbe : URL → (String → List String) → Int → AttemptOutcome
  tcpProbe : String → Int → Int → AttemptOutcome

/-- A record of one probe-primitive invocation, kept so that "no primitive
is invoked" is statable; the resolved port is recorded for the networked
kinds. -/
inductive PrimitiveCall where
  | exec
  | http (port : Int)
  | tcp (port : Int)
deriving DecidableEq, Repr

/-- runProbe from prober.go: dispatch on the first populated variant, with
port extraction gating the two networked kinds; the second component lists
the primitive invocations performed (the source performs at most one per
call). -/
def runProbe (prim : Primitives) (p : Probe) (pod : Pod) (status : PodStatus)
    (container : Container) : AttemptOutcome × List PrimitiveCall :=
  let timeout := p.TimeoutSeconds
  match p.Exec with
  | some execAction =>
    let command := prim.expandCommand execAction.Command container.Env
    (prim.execProbe command timeout, [PrimitiveCall.exec])
  | none =>
  match p.HTTPGet with
  | some g =>
    let scheme := stringToLower g.Scheme
    let host := if g.Host = "" then status.PodIP else g.Host
    match extractPort g.Port container with
    | .error e => ({ result := ProbeResult.unknown, output := "", err := some e }, [])
    | .ok port =>
      let u := formatURL scheme host port g.Path
      let headers := buildHeader g.HTTPHeaders
      (prim.httpProbe u headers timeout, [PrimitiveCall.http port])
  | none =>
  match p.TCPSocket with
  | some t =>
    match extractPort t.Port container with
    | .error e => ({ result := ProbeResult.unknown, output := "", err := some e }, [])
    | .ok port =>
      let host := if t.Host = "" then status.PodIP else t.Host
      (prim.tcpProbe host port timeout, [PrimitiveCall.tcp port])
  | none =>
    ({ result := ProbeResult.unknown, output := "",
       err := some ("Missing probe handler for " ++ formatPod pod ++ ":" ++ container.Name) }, [])

/-- The body of the runProbeWithRetries loop: attempt i is the outcome of
the i-th runProbe invocation under the external world's state at that
moment (the source calls runProbe with unchanging arguments, but the
networked primitives are effectful, so successive attempts may differ).
The loop returns attempt i with a nil error as soon as one occurs, and
otherwise carries the last attempt out of the loop. -/
def runProbeWithRetriesGo (attempt : Nat → AttemptOutcome) :
    Nat → Nat → AttemptOutcome → AttemptOutcome
  | _, 0, last => last
  | i, fuel + 1, _ =>
    let a := attempt i
    match a.err with
    | none => { result := a.result, output := a.output, err := none }
    | some _ => runProbeWithRetriesGo attempt (i + 1) fuel a

/-- maxProbeRetries: the loop bound hard-coded as 3 in the source loop. -/
def maxProbeRetries : Nat := 3

/-- runProbeWithRetries from prober.go. The initial accumulator models the
zero-valued loop variables; it is unreachable since the loop always runs
at least once. -/
def runProbeWithRetries (attempt : Nat → AttemptOutcome) : AttemptOutcome :=
  runProbeWithRetriesGo attempt 0 maxProbeRetries
    { result := ProbeResult.unknown, output := "", err := none }

/-- Number of loop-body executions (runProbe invocations) the retry loop
performs for a given attempt oracle. -/
def runProbeCallCountGo (attempt : Nat → AttemptOutcome) : Nat → Nat → Nat
  | _, 0 => 0
  | i, fuel + 1 =>
    match (attempt i).err with
    | none => 1
    | some _ => 1 + runProbeCallCountGo attempt (i + 1) fuel

/-- Invocation count of the full retry cycle. -/
def runProbeCallCount (attempt : Nat → AttemptOutcome) : Nat :=
  runProbeCallCountGo attempt 0 maxProbeRetries

/-- The probe wrapper from prober.go: nil spec short-circuits to Success;
otherwise the retry cycle runs and every errored or non-Success outcome is
collapsed to results.Failure carrying the cycle's error. -/
def probe (probeSpec : Option Probe) (attempt : Nat → AttemptOutcome) :
    ResultsResult × Option String :=
  match probeSpec with
  | none => (ResultsResult.success, none)
  | some _ =>
    let a := runProbeWithRetries attempt
    if a.err ≠ none ∨ a.result ≠ ProbeResult.success then (ResultsResult.failure, a.err)
    else (ResultsResult.success, none)

/-! ## Readiness tracker (the readiness manager in manager/prober/prober.go)

Go maps are modelled as association lists; `setAssoc` is Go map
assignment (overwrite an existing key, otherwise add the binding) and
`lookupAssoc` is a Go map read. -/

/-- Go map read. -/
def lookupAssoc {α : Type} (m : List (String × α)) (k : String) : Option α :=
  (m.find? (fun entry => entry.1 = k)).map (fun entry => entry.2)

/-- Go map assignment. -/
def setAssoc {α : Type} (m : List (String × α)) (k : String) (v : α) :
    List (String × α) :=
  if m.any (fun entry => entry.1 = k) then
    m.map (fun entry => if entry.1 = k then (k, v) else entry)
  else m ++ [(k, v)]

/-- Per-container readiness map (container name to bool). -/
def ContainerReadiness : Type := List (String × Bool)

/-- The three-level readiness structure: namespace, pod name, container name. -/
def ReadinessMap : Type := List (String × List (String × ContainerReadiness))

/-- The readiness manager's observable state: the workload store's current
pod list (the rm collaborator, read-only here) and the readiness map. -/
structure ReadinessState where
  pods : List Pod
  readiness : ReadinessMap

/-- NewReadinessManager: the readiness map starts empty (the source leaves
the Go map nil; reads of a nil map yield absent for every key). -/
def NewReadinessManager (pods : List Pod) : ReadinessState :=
  { pods := pods, readiness := [] }

/-- The pod-resolution loop of SetContainerReadiness: scans the entire pod
list and keeps the last pod whose UID matches (the loop does not break). -/
def resolvePodByUID (pods : List Pod) (podUID : String) : Option Pod :=
  pods.foldl (fun acc pod => if pod.UID = podUID then some pod else acc) none

/-- The inner map update of SetContainerReadiness, translated literally
from the source: the namespace level and the pod level are fetched; when a
level is absent a fresh map is created in a local variable, the container
entry is written into that local, and the local is never stored back into
the enclosing structure, so the write is lost; only when both levels
already exist does the write land in the shared structure (Go maps are
references, so mutating the fetched inner map is visible through the
outer one). -/
def setReadinessEntry (readiness : ReadinessMap) (namespaceName podName containerName : String)
    (ready : Bool) : ReadinessMap :=
  match lookupAssoc readiness namespaceName with
  | none => readiness
  | some nsMap =>
    match lookupAssoc nsMap podName with
    | none => readiness
    | some podMap =>
      setAssoc readiness namespaceName
        (setAssoc nsMap podName (setAssoc podMap containerName ready))

/-- The container-resolution loop of SetContainerReadiness: the first
container status whose ContainerID matches wins, and the map update runs
for it; when none matches the state is untouched. -/
def setReadinessForContainers (readiness : ReadinessMap) (targetPod : Pod)
    (cid : String) (ready : Bool) : List ContainerStatus → ReadinessMap
  | [] => readiness
  | c :: rest =>
    if c.ContainerID = cid then
      setReadinessEntry readiness targetPod.Namespace targetPod.Name c.Name ready
    else setReadinessForContainers readiness targetPod cid ready rest

/-- SetContainerReadiness from the readiness manager: resolve the pod by
UID (no-op when unresolvable), resolve the container by runtime id among
the pod's container statuses (no-op when unresolvable), then perform the
map update. -/
def SetContainerReadiness (st : ReadinessState) (podUID cid : String) (ready : Bool) :
    ReadinessState :=
  match resolvePodByUID st.pods podUID with
  | none => st
  | some targetPod =>
    { st with
      readiness :=
        setReadinessForContainers st.readiness targetPod cid ready
          targetPod.Status.ContainerStatuses }

/-- GetPodContainersReadiness from the readiness manager: the per-container
map when both levels exist, otherwise nil (modelled as none). -/
def GetPodContainersReadiness (st : ReadinessState) (namespaceName podName : String) :
    Option ContainerReadiness :=
  match lookupAssoc st.readiness namespaceName with
  | some nsMap => lookupAssoc nsMap podName
  | none => none

/-! ## Liveness dispatcher (manager/liveness.go) -/

/-- LivenessUpdate: the coarse (namespace, pod name) notification. -/
structure LivenessUpdate where
  namespaceName : String
  pod : String
deriving DecidableEq, Repr

/-- results.Update: one raw probe-result event from the results stream. -/
structure ResultsUpdate where
  PodUID : String
  ContainerID : String
  Result : ResultsResult
deriving DecidableEq, Repr

/-- podStatusReasonProviderFailed. Modelled from the spec: the sentinel
"provider failed" status reason is a constant defined elsewhere in the
repository (not among the provided sources); only its equality with a
pod's status reason is observed. -/
def podStatusReasonProviderFailed : String := "ProviderFailed"

/-- The terminal-workload test inlined in updatePodLiveness: phase
Succeeded or Failed, or the provider-failed sentinel reason, or a non-nil
deletion marker. -/
def podIsTerminal (pod : Pod) : Bool :=
  pod.Status.Phase = PodPhase.succeeded ∨ pod.Status.Phase = PodPhase.failed
    ∨ pod.Status.Reason = podStatusReasonProviderFailed
    ∨ pod.DeletionTimestamp.isSome

/-- The pod loop of updatePodLiveness: every pod whose UID matches the
update's pod UID (the source compares against the update's uid, per the
adjacent log statement) either aborts the whole function when terminal
(a bare return, so pods later in the list are not examined and nothing
further is pushed) or pushes one LivenessUpdate and continues scanning. -/
def livenessScan (update : ResultsUpdate) : List Pod → List LivenessUpdate
  | [] => []
  | pod :: rest =>
    if pod.UID = update.PodUID then
      if podIsTerminal pod then []
      else
        { namespaceName := pod.Namespace, pod := pod.Name } :: livenessScan update rest
    else livenessScan update rest

/-- updatePodLiveness from liveness.go: only Failure results are acted on;
the returned list is the sequence of LivenessUpdate values pushed onto the
outbound channel, in push order. -/
def updatePodLiveness (pods : List Pod) (update : ResultsUpdate) : List LivenessUpdate :=
  if update.Result = ResultsResult.failure then livenessScan update pods
  else []

/-! ## Claims about the error taxonomy -/

/-- C2: the claim states that IsRetryable returns true for
TooManyRequests, ServiceUnavailable and InternalServerError and false
otherwise. The source contradicts it: the TooManyRequests and
ServiceUnavailable switch cases have empty bodies and Go cases do not
fall through, so IsRetryable is true exactly for InternalServerError.
This theorem evaluates the embedded source at the failing inputs and
characterises the actual classification. -/
theorem isRetryable_only_internal_server_error :
    IsRetryable (NewTooManyRequests "too many requests" 5) = false
    ∧ IsRetryable (NewServiceUnavailable "service unavailable" 5) = false
    ∧ IsRetryable (NewInternalServerError "internal" 5) = true
    ∧ (∀ err : GoError,
        IsRetryable err = true ↔ reasonForError err = ErrorReason.internalServerError) := by
  refine ⟨rfl, rfl, rfl, fun err => ?_⟩
  cases h : reasonForError err <;> simp [IsRetryable, h]

/-- C3: for every error exposing a status, SuggestsClientDelay returns
(Details.RetryAfterSeconds, true) when the reason is ServiceUnavailable
and Details is present, regardless of sign; otherwise
(Details.RetryAfterSeconds, true) when Details is present and positive,
for any reason; and (0, false) in all remaining cases. -/
theorem suggestsClientDelay_spec (s : ErrorStatus) (d : ErrorDetails) :
    (s.Details = some d → s.Reason = ErrorReason.serviceUnavailable →
        SuggestsClientDelay (.operation s) = (d.RetryAfterSeconds, true))
    ∧ (s.Details = some d → s.Reason ≠ ErrorReason.serviceUnavailable →
        d.RetryAfterSeconds > 0 →
        SuggestsClientDelay (.operation s) = (d.RetryAfterSeconds, true))
    ∧ (s.Details = some d → s.Reason ≠ ErrorReason.serviceUnavailable →
        ¬ d.RetryAfterSeconds > 0 →
        SuggestsClientDelay (.operation s) = (0, false))
    ∧ (s.Details = none → SuggestsClientDelay (.operation s) = (0, false)) := by
  refine ⟨fun hd hr => ?_, fun hd hr hpos => ?_, fun hd hr hpos => ?_, fun hd => ?_⟩
  · simp [SuggestsClientDelay, statusOf, hd, hr]
  · cases hreason : s.Reason <;>
      simp_all [SuggestsClientDelay, statusOf, hd, hpos]
  · cases hreason : s.Reason <;>
      simp_all [SuggestsClientDelay, statusOf, hd, hpos]
  · simp [SuggestsClientDelay, statusOf, hd]

/-- Witness for C3: a ServiceUnavailable status with RetryAfterSeconds 5
yields (5, true) through the reason-specific branch. -/
theorem suggestsClientDelay_spec_witness :
    SuggestsClientDelay
      (.operation { Reason := ErrorReason.serviceUnavailable,
                    Details := some { RetryAfterSeconds := 5 }, Message := "m" })
      = (5, true) :=
  (suggestsClientDelay_spec
    { Reason := ErrorReason.serviceUnavailable,
      Details := some { RetryAfterSeconds := 5 }, Message := "m" }
    { RetryAfterSeconds := 5 }).1 rfl rfl

/-- C9: every error that does not expose the status capability is
classified with the Unknown reason, so IsNotFound and IsRetryable return
false and SuggestsClientDelay returns (0, false); all classification
functions are total on such errors. -/
theorem unknown_reason_safe_defaults (err : GoError) (h : statusOf err = none) :
    reasonForError err = ErrorReason.unknown
    ∧ IsNotFound err = false
    ∧ IsRetryable err = false
    ∧ SuggestsClientDelay err = (0, false) := by
  have hreason : reasonForError err = ErrorReason.unknown := by
    simp [reasonForError, h]
  refine ⟨hreason, ?_, ?_, ?_⟩
  · simp [IsNotFound, hreason]
  · simp [IsRetryable, hreason]
  · simp [SuggestsClientDelay, h]

/-- Witness for C9: a plain error without the status capability. -/
theorem unknown_reason_safe_defaults_witness :
    reasonForError (.plain "boom") = ErrorReason.unknown
    ∧ IsNotFound (.plain "boom") = false
    ∧ IsRetryable (.plain "boom") = false
    ∧ SuggestsClientDelay (.plain "boom") = (0, false) :=
  unknown_reason_safe_defaults (.plain "boom") rfl

/-! ## Claims about the probe engine -/

/-- The fold underlying buildHeader, generalised over the accumulator:
the values recorded under a name are the initial values followed by the
input values carrying that name, in input order. -/
theorem foldl_headerStep (l : List HTTPHeader) (init : String → List String) (name : String) :
    (l.foldl headerStep init) name
      = init name ++ (l.filter (fun h => h.Name = name)).map (fun h => h.Value) := by
  induction l generalizing init with
  | nil => simp
  | cons hd tl ih =>
    simp only [List.foldl_cons, List.filter_cons]
    rw [ih]
    by_cases hn : hd.Name = name
    · simp [headerStep, hn]
    · have hn2 : ¬ name = hd.Name := fun h => hn h.symm
      simp [headerStep, hn, hn2]

/-- C8: for every header list and name, the built header map's value list
for that name is the ordered sequence of input values given for that name;
later entries append and never overwrite earlier ones. -/
theorem buildHeader_append_spec (headerList : List HTTPHeader) (name : String) :
    buildHeader headerList name
      = (headerList.filter (fun h => h.Name = name)).map (fun h => h.Value) := by
  simpa using foldl_headerStep headerList (fun _ => []) name

/-- C5: the retry loop invokes the underlying probe at most 3 times; the
first attempt returning a nil error is returned immediately (its result
and output, with a nil error) and ends the loop; when all 3 attempts
error, the 3rd attempt's result, output and error are returned after
exactly 3 invocations. -/
theorem runProbeWithRetries_spec (attempt : Nat → AttemptOutcome) :
    runProbeCallCount attempt ≤ 3
    ∧ (∀ i, i < 3 → (∀ j, j < i → (attempt j).err ≠ none) → (attempt i).err = none →
        runProbeWithRetries attempt
            = { result := (attempt i).result, output := (attempt i).output, err := none }
          ∧ runProbeCallCount attempt = i + 1)
    ∧ ((∀ j, j < 3 → (attempt j).err ≠ none) →
        runProbeWithRetries attempt = attempt 2 ∧ runProbeCallCount attempt = 3) := by
  refine ⟨?_, ?_, ?_⟩
  · cases h0 : (attempt 0).err <;> cases h1 : (attempt 1).err <;> cases h2 : (attempt 2).err <;>
      simp [runProbeCallCount, maxProbeRetries, runProbeCallCountGo, h0, h1, h2]
  · intro i hi hprev hnone
    interval_cases i
    · constructor
      · simp [runProbeWithRetries, maxProbeRetries, runProbeWithRetriesGo, hnone]
      · simp [runProbeCallCount, maxProbeRetries, runProbeCallCountGo, hnone]
    · obtain ⟨e0, he0⟩ := Option.ne_none_iff_exists'.mp (hprev 0 (by omega))
      constructor
      · simp [runProbeWithRetries, maxProbeRetries, runProbeWithRetriesGo, he0, hnone]
      · simp [runProbeCallCount, maxProbeRetries, runProbeCallCountGo, he0, hnone]
    · obtain ⟨e0, he0⟩ := Option.ne_none_iff_exists'.mp (hprev 0 (by omega))
      obtain ⟨e1, he1⟩ := Option.ne_none_iff_exists'.mp (hprev 1 (by omega))
      constructor
      · simp [runProbeWithRetries, maxProbeRetries, runProbeWithRetriesGo, he0, he1, hnone]
      · simp [runProbeCallCount, maxProbeRetries, runProbeCallCountGo, he0, he1, hnone]
  · intro hall
    obtain ⟨e0, he0⟩ := Option.ne_none_iff_exists'.mp (hall 0 (by omega))
    obtain ⟨e1, he1⟩ := Option.ne_none_iff_exists'.mp (hall 1 (by omega))
    obtain ⟨e2, he2⟩ := Option.ne_none_iff_exists'.mp (hall 2 (by omega))
    constructor
    · simp [runProbeWithRetries, maxProbeRetries, runProbeWithRetriesGo, he0, he1, he2]
    · simp [runProbeCallCount, maxProbeRetries, runProbeCallCountGo, he0, he1, he2]

/-- Witness for C5: an oracle that errors on every attempt makes the loop
return attempt 2's triple after exactly 3 invocations. -/
theorem runProbeWithRetries_spec_witness :
    runProbeWithRetries
        (fun i => { result := ProbeResult.failure, output := toString i, err := some "dial" })
      = { result := ProbeResult.failure, output := toString 2, err := some "dial" }
    ∧ runProbeCallCount
        (fun i => { result := ProbeResult.failure, output := toString i, err := some "dial" })
      = 3 :=
  (runProbeWithRetries_spec
    (fun i => { result := ProbeResult.failure, output := toString i, err := some "dial" })).2.2
    (fun j _ => by simp)

/-- C10: for a non-nil probe spec the wrapper returns results.Success
exactly when the retry cycle produced a nil error and a Success result,
and in every other case returns results.Failure paired with the cycle's
error; in particular a cycle outcome of Unknown is surfaced as Failure,
never as a third value (the wrapper's result type has no Unknown). -/
theorem probe_collapse_spec (s : Probe) (attempt : Nat → AttemptOutcome) :
    ((runProbeWithRetries attempt).err = none
        ∧ (runProbeWithRetries attempt).result = ProbeResult.success →
      probe (some s) attempt = (ResultsResult.success, none))
    ∧ (¬((runProbeWithRetries attempt).err = none
          ∧ (runProbeWithRetries attempt).result = ProbeResult.success) →
      probe (some s) attempt = (ResultsResult.failure, (runProbeWithRetries attempt).err))
    ∧ ((probe (some s) attempt).1 = ResultsResult.success ↔
        (runProbeWithRetries attempt).err = none
          ∧ (runProbeWithRetries attempt).result = ProbeResult.success) := by
  by_cases hc : (runProbeWithRetries attempt).err = none
      ∧ (runProbeWithRetries attempt).result = ProbeResult.success
  · refine ⟨fun _ => ?_, fun hn => absurd hc hn, ?_⟩
    · simp [probe, hc.1, hc.2]
    · simp [probe, hc.1, hc.2]
  · have hne : (runProbeWithRetries attempt).err ≠ none
        ∨ (runProbeWithRetries attempt).result ≠ ProbeResult.success := by
      by_contra hcon
      push_neg at hcon
      exact hc ⟨hcon.1, hcon.2⟩
    refine ⟨fun h => absurd h hc, fun _ => ?_, ?_⟩
    · simp [probe, hne]
    · simp [probe, hne, hc]

/-- Witness for C10: a cycle ending in a clean Failure result is collapsed
to results.Failure with a nil error. -/
theorem probe_collapse_spec_witness :
    probe (some { Exec := none, HTTPGet := none, TCPSocket := none, TimeoutSeconds := 1 })
        (fun _ => { result := ProbeResult.failure, output := "bad", err := none })
      = (ResultsResult.failure,
         (runProbeWithRetries
           (fun _ => { result := ProbeResult.failure, output := "bad", err := none })).err) :=
  (probe_collapse_spec { Exec := none, HTTPGet := none, TCPSocket := none, TimeoutSeconds := 1 }
    (fun _ => { result := ProbeResult.failure, output := "bad", err := none })).2.1
    (by
      intro hcon
      have := hcon.2
      simp [runProbeWithRetries, maxProbeRetries, runProbeWithRetriesGo] at this)

/-- Port resolution as the spec words it, for comparison with the source's
extractPort: a literal integer kind yields its integer value; a named
reference is looked up among the container's declared ports, falling back
to parsing the name itself as an integer; any other kind resolves to
nothing. The range gate is deliberately absent here — it is the property
under test. -/
def resolvedPortSpec (param : IntOrString) (container : Container) : Option Int :=
  if param.Kind = intstrInt then some param.IntVal
  else if param.Kind = intstrString then
    match findPortByName container param.StrVal with
    | .ok port => some port
    | .error _ => strconvAtoi param.StrVal
  else none

/-- C6: extractPort succeeds exactly on the spec-worded resolution result
when it lies in the open interval (0, 65536), and errors otherwise; in
runProbe, a successful extraction leads to exactly one primitive
invocation carrying that port, and a failed extraction yields Unknown
with a non-nil error and no primitive invocation, for both the HTTPGet
and the TCPSocket kinds. -/
theorem extractPort_gate_spec (param : IntOrString) (container : Container)
    (prim : Primitives) (p : Probe) (pod : Pod) (status : PodStatus) :
    (∀ port, resolvedPortSpec param container = some port → 0 < port → port < 65536 →
        extractPort param container = .ok port)
    ∧ (∀ port, extractPort param container = .ok port →
        resolvedPortSpec param container = some port ∧ 0 < port ∧ port < 65536)
    ∧ (∀ port, resolvedPortSpec param container = some port → ¬(0 < port ∧ port < 65536) →
        ∃ e, extractPort param container = .error e)
    ∧ (resolvedPortSpec param container = none →
        ∃ e, extractPort param container = .error e)
    ∧ (∀ g, p.Exec = none → p.HTTPGet = some g →
        (∀ port, extractPort g.Port container = .ok port →
            (runProbe prim p pod status container).2 = [PrimitiveCall.http port])
        ∧ (∀ e, extractPort g.Port container = .error e →
            runProbe prim p pod status container
              = ({ result := ProbeResult.unknown, output := "", err := some e }, [])))
    ∧ (∀ t, p.Exec = none → p.HTTPGet = none → p.TCPSocket = some t →
        (∀ port, extractPort t.Port container = .ok port →
            (runProbe prim p pod status container).2 = [PrimitiveCall.tcp port])
        ∧ (∀ e, extractPort t.Port container = .error e →
            runProbe prim p pod status container
              = ({ result := ProbeResult.unknown, output := "", err := some e }, []))) := by
  have hresolved : ∀ port, resolvedPortSpec param container = some port →
      extractPort param container
        = (if 0 < port ∧ port < 65536 then .ok port else .error "invalid port number") := by
    intro port hport
    by_cases hint : param.Kind = intstrInt
    · simp only [resolvedPortSpec, if_pos hint, Option.some.injEq] at hport
      subst hport
      simp [extractPort, hint, IntOrString.IntValue, intstrInt, intstrString]
    · by_cases hstr : param.Kind = intstrString
      · simp only [resolvedPortSpec, if_neg hint, if_pos hstr] at hport
        cases hfind : findPortByName container param.StrVal with
        | ok q =>
          rw [hfind] at hport
          simp only [Option.some.injEq] at hport
          subst hport
          simp [extractPort, hint, hstr, hfind, intstrInt, intstrString]
        | error msg =>
          rw [hfind] at hport
          simp only at hport
          simp [extractPort, hint, hstr, hfind, hport, intstrInt, intstrString]
      · simp [resolvedPortSpec, hint, hstr] at hport
  have hnone : resolvedPortSpec param container = none →
      ∃ e, extractPort param container = .error e := by
    intro hport
    by_cases hint : param.Kind = intstrInt
    · simp [resolvedPortSpec, hint] at hport
    · by_cases hstr : param.Kind = intstrString
      · simp only [resolvedPortSpec, if_neg hint, if_pos hstr] at hport
        cases hfind : findPortByName container param.StrVal with
        | ok q => rw [hfind] at hport; simp at hport
        | error msg =>
          rw [hfind] at hport
          simp only at hport
          refine ⟨"parsing " ++ param.StrVal ++ ": invalid syntax", ?_⟩
          simp [extractPort, hint, hstr, hfind, hport, intstrInt, intstrString]
      · refine ⟨"IntOrString had no kind", ?_⟩
        simp [extractPort, hint, hstr]
  refine ⟨?_, ?_, ?_, hnone, ?_, ?_⟩
  · intro port hport h1 h2
    rw [hresolved port hport]
    simp [h1, h2]
  · intro port hok
    cases hspec : resolvedPortSpec param container with
    | none =>
      obtain ⟨e, he⟩ := hnone hspec
      rw [hok] at he
      cases he
    | some q =>
      have hextract := hresolved q hspec
      rw [hok] at hextract
      by_cases hrange : 0 < q ∧ q < 65536
      · rw [if_pos hrange] at hextract
        have hpq : port = q := by
          injection hextract
        subst hpq
        exact ⟨rfl, hrange⟩
      · rw [if_neg hrange] at hextract
        cases hextract
  · intro port hport hrange
    refine ⟨"invalid port number", ?_⟩
    rw [hresolved port hport, if_neg hrange]
  · intro g hexec hhttp
    constructor
    · intro port hok
      simp [runProbe, hexec, hhttp, hok]
    · intro e herr
      simp [runProbe, hexec, hhttp, herr]
  · intro t hexec hhttp htcp
    constructor
    · intro port hok
      simp [runProbe, hexec, hhttp, htcp, hok]
    · intro e herr
      simp [runProbe, hexec, hhttp, htcp, herr]

/-- Witness for C6: a literal port 8080 resolves, lies in range, and the
TCP path invokes precisely one primitive call carrying 8080. -/
theorem extractPort_gate_spec_witness :
    extractPort { Kind := 0, IntVal := 8080, StrVal := "" }
        { Name := "app", Ports := [], Env := [] } = .ok 8080
    ∧ (runProbe
        { expandCommand := fun cmd _ => cmd,
          execProbe := fun _ _ => { result := ProbeResult.success, output := "", err := none },
          httpProbe := fun _ _ _ => { result := ProbeResult.success, output := "", err := none },
          tcpProbe := fun _ _ _ => { result := ProbeResult.success, output := "", err := none } }
        { Exec := none, HTTPGet := none,
          TCPSocket := some { Host := "", Port := { Kind := 0, IntVal := 8080, StrVal := "" } },
          TimeoutSeconds := 1 }
        { Namespace := "default", Name := "web", UID := "u1", DeletionTimestamp := none,
          Status := { Phase := PodPhase.running, Reason := "", PodIP := "10.0.0.1",
                      ContainerStatuses := [] } }
        { Phase := PodPhase.running, Reason := "", PodIP := "10.0.0.1",
          ContainerStatuses := [] }
        { Name := "app", Ports := [], Env := [] }).2
      = [PrimitiveCall.tcp 8080] := by
  have h := extractPort_gate_spec { Kind := 0, IntVal := 8080, StrVal := "" }
    { Name := "app", Ports := [], Env := [] }
    { expandCommand := fun cmd _ => cmd,
      execProbe := fun _ _ => { result := ProbeResult.success, output := "", err := none },
      httpProbe := fun _ _ _ => { result := ProbeResult.success, output := "", err := none },
      tcpProbe := fun _ _ _ => { result := ProbeResult.success, output := "", err := none } }
    { Exec := none, HTTPGet := none,
      TCPSocket := some { Host := "", Port := { Kind := 0, IntVal := 8080, StrVal := "" } },
      TimeoutSeconds := 1 }
    { Namespace := "default", Name := "web", UID := "u1", DeletionTimestamp := none,
      Status := { Phase := PodPhase.running, Reason := "", PodIP := "10.0.0.1",
                  ContainerStatuses := [] } }
    { Phase := PodPhase.running, Reason := "", PodIP := "10.0.0.1",
      ContainerStatuses := [] }
  have hok : extractPort { Kind := 0, IntVal := 8080, StrVal := "" }
      { Name := "app", Ports := [], Env := [] } = .ok 8080 :=
    h.1 8080 (by simp [resolvedPortSpec, intstrInt]) (by omega) (by omega)
  exact ⟨hok,
    (h.2.2.2.2.2 { Host := "", Port := { Kind := 0, IntVal := 8080, StrVal := "" } }
      rfl rfl rfl).1 8080 hok⟩

/-! ## Concrete fixtures used by witnesses and counterexamples -/

/-- The spec's scenario workload: namespace default, name web, uid u1,
running, with one container app whose runtime id is c1. -/
def webPod : Pod :=
  { Namespace := "default", Name := "web", UID := "u1", DeletionTimestamp := none,
    Status := { Phase := PodPhase.running, Reason := "", PodIP := "10.0.0.1",
                ContainerStatuses := [{ Name := "app", ContainerID := "c1" }] } }

/-- The app container of the scenario workload. -/
def appContainer : Container :=
  { Name := "app", Ports := [], Env := [] }

/-- Probe primitives that always report success; used where a test input
must witness that the engine never reaches them. -/
def constPrimitives : Primitives :=
  { expandCommand := fun cmd _ => cmd,
    execProbe := fun _ _ => { result := ProbeResult.success, output := "", err := none },
    httpProbe := fun _ _ _ => { result := ProbeResult.success, output := "", err := none },
    tcpProbe := fun _ _ _ => { result := ProbeResult.success, output := "", err := none } }

/-- A non-nil probe spec with none of the three protocol variants set. -/
def emptyProbeSpec : Probe :=
  { Exec := none, HTTPGet := none, TCPSocket := none, TimeoutSeconds := 1 }

/-- C7 counterexample: on a non-nil probe spec with no populated variant,
the engine does not return Success with no error — runProbe yields Unknown
with a non-nil error (and no primitive invocation), and the wrapper
surfaces Failure, refuting the claim as stated at this input. -/
theorem probe_empty_spec_counterexample :
    (runProbe constPrimitives emptyProbeSpec webPod webPod.Status appContainer).1.result
        = ProbeResult.unknown
    ∧ (runProbe constPrimitives emptyProbeSpec webPod webPod.Status appContainer).1.err ≠ none
    ∧ (runProbe constPrimitives emptyProbeSpec webPod webPod.Status appContainer).2 = []
    ∧ (probe (some emptyProbeSpec)
        (fun _ => (runProbe constPrimitives emptyProbeSpec webPod webPod.Status appContainer).1)).1
        = ResultsResult.failure := by
  refine ⟨rfl, ?_, rfl, rfl⟩
  simp [runProbe, emptyProbeSpec]

/-- C7 amended: a nil probe spec makes the wrapper return Success with no
error without consulting the retry cycle; a non-nil spec with no populated
variant makes runProbe return Unknown with a non-nil error and invoke no
probe primitive. -/
theorem probe_no_variant_spec (prim : Primitives) (p : Probe) (pod : Pod)
    (status : PodStatus) (container : Container) (attempt : Nat → AttemptOutcome)
    (hexec : p.Exec = none) (hhttp : p.HTTPGet = none) (htcp : p.TCPSocket = none) :
    probe none attempt = (ResultsResult.success, none)
    ∧ (runProbe prim p pod status container).2 = []
    ∧ (runProbe prim p pod status container).1.result = ProbeResult.unknown
    ∧ (runProbe prim p pod status container).1.err ≠ none := by
  refine ⟨rfl, ?_, ?_, ?_⟩ <;> simp [runProbe, hexec, hhttp, htcp]

/-- Witness for the C7 amended claim at the concrete empty spec. -/
theorem probe_no_variant_spec_witness :
    probe none (fun _ => { result := ProbeResult.success, output := "", err := none })
        = (ResultsResult.success, none)
    ∧ (runProbe constPrimitives emptyProbeSpec webPod webPod.Status appContainer).2 = []
    ∧ (runProbe constPrimitives emptyProbeSpec webPod webPod.Status appContainer).1.result
        = ProbeResult.unknown
    ∧ (runProbe constPrimitives emptyProbeSpec webPod webPod.Status appContainer).1.err ≠ none :=
  probe_no_variant_spec constPrimitives emptyProbeSpec webPod webPod.Status appContainer
    (fun _ => { result := ProbeResult.success, output := "", err := none }) rfl rfl rfl

/-! ## Claims about the readiness tracker -/

/-- C1: the claim states that after SetContainerReadiness(uid, cid, true)
for a resolvable workload and container, GetPodContainersReadiness returns
a map sending that container's name to true. The source contradicts it:
the namespace-level and pod-level maps created on a miss are never stored
back into the readiness structure, so the write is lost whenever either
level is absent — and since no code path ever inserts a level, a freshly
created manager loses every write. This theorem evaluates the embedded
source on the spec's own scenario (first conjunct: the claimed lookup
yields nothing), shows the write is also lost when only the pod level is
missing (second conjunct), and shows the update does land when both
levels pre-exist (third conjunct), which confirms the map logic itself
and isolates the missing store-back as the defect. -/
theorem readiness_set_then_get_lost :
    GetPodContainersReadiness
        (SetContainerReadiness (NewReadinessManager [webPod]) "u1" "c1" true) "default" "web"
      = none
    ∧ GetPodContainersReadiness
        (SetContainerReadiness
          { pods := [webPod], readiness := [("default", [])] } "u1" "c1" true)
        "default" "web"
      = none
    ∧ GetPodContainersReadiness
        (SetContainerReadiness
          { pods := [webPod], readiness := [("default", [("web", [])])] } "u1" "c1" true)
        "default" "web"
      = some [("app", true)] :=
  ⟨rfl, rfl, rfl⟩

/-! ## Claims about the liveness dispatcher -/

/-- The liveness pod loop pushes nothing when no pod matches the update's
pod UID. -/
theorem livenessScan_no_match (update : ResultsUpdate) (pods : List Pod)
    (h : ∀ q ∈ pods, ¬ q.UID = update.PodUID) : livenessScan update pods = [] := by
  induction pods with
  | nil => rfl
  | cons q rest ih =>
    have hq := h q (by simp)
    simp only [livenessScan, if_neg hq]
    exact ih (fun r hr => h r (by simp [hr]))

/-- C4: when exactly one known pod carries the update's pod UID, a Failure
update pushes exactly one LivenessUpdate with that pod's namespace and
name if the pod is non-terminal, and pushes nothing if the pod is
terminal (phase Succeeded or Failed, the provider-failed sentinel reason,
or a non-nil deletion timestamp — all three disjuncts are inside
podIsTerminal). -/
theorem updatePodLiveness_spec (pods : List Pod) (update : ResultsUpdate) (p : Pod)
    (hres : pods.filter (fun q => q.UID = update.PodUID) = [p])
    (hfail : update.Result = ResultsResult.failure) :
    (podIsTerminal p = false →
        updatePodLiveness pods update = [{ namespaceName := p.Namespace, pod := p.Name }])
    ∧ (podIsTerminal p = true → updatePodLiveness pods update = []) := by
  have hscan : livenessScan update pods
      = if podIsTerminal p then []
        else [{ namespaceName := p.Namespace, pod := p.Name }] := by
    induction pods with
    | nil => simp at hres
    | cons q rest ih =>
      by_cases hq : q.UID = update.PodUID
      · rw [List.filter_cons_of_pos (by simpa using hq)] at hres
        simp only [List.cons.injEq] at hres
        obtain ⟨hqp, hrest⟩ := hres
        subst hqp
        have hnomatch : ∀ r ∈ rest, ¬ r.UID = update.PodUID := by
          intro r hr
          have := List.filter_eq_nil_iff.mp hrest r hr
          simpa using this
        simp only [livenessScan, if_pos hq, livenessScan_no_match update rest hnomatch]
      · rw [List.filter_cons_of_neg (by simpa using hq)] at hres
        simp only [livenessScan, if_neg hq]
        exact ih hres
  constructor
  · intro hterm
    simp [updatePodLiveness, hfail, hscan, hterm]
  · intro hterm
    simp [updatePodLiveness, hfail, hscan, hterm]

/-- Witness for C4: the scenario workload, resolvable and non-terminal,
yields exactly one notification. -/
theorem updatePodLiveness_spec_witness :
    updatePodLiveness [webPod]
        { PodUID := "u1", ContainerID := "c1", Result := ResultsResult.failure }
      = [{ namespaceName := "default", pod := "web" }] :=
  (updatePodLiveness_spec [webPod]
    { PodUID := "u1", ContainerID := "c1", Result := ResultsResult.failure }
    webPod (by rfl) rfl).1 (by rfl)

end VK
